import Mathlib

/-!
Verification development for the Infosphere news-verification backend.

The definitions below are shallow embeddings of the Python services:
* `backend/services/advanced_verification_service.py` (class `AdvancedNewsVerifier`)
* `backend/services/temporal_verification_service.py` (class `TemporalFactChecker`)
* `backend/services/network_analysis_service.py` (class `NetworkAnalyzer`)
* `backend/services/atie_service.py` (cache-key logic)

Scores are modelled over `ℚ` (the Python code uses floats but the spec and
all thresholds are exact decimal constants).  Hash functions from Python's
`hashlib` (`sha256`, `md5`) are implemented bit-faithfully over byte lists,
with 32-bit words represented as `Nat` reduced modulo `2 ^ 32`.
-/

/-- Result of one verification check, mirroring the dicts built by the
collectors in `advanced_verification_service.py` (keys `score`, `status`,
`details`). -/
structure CheckResult where
  score : ℚ
  status : String
  details : String
deriving Repr, DecidableEq

/-- `asyncio.gather(..., return_exceptions=True)` yields either a check
result or an exception; `Except String CheckResult` models one slot. -/
abbrev CheckOutcome := Except String CheckResult

/-- Lines 83-94 of `verify_article`: an exception becomes the neutral
result `{score: 0.5, status: error, details: str(e)}`, otherwise the
collector result is kept. -/
def resolveCheck : CheckOutcome → CheckResult
  | Except.error e => ⟨1/2, "error", e⟩
  | Except.ok r => r

/-- The `check_names` list of `verify_article` (lines 74-80), in the
order the collectors are gathered. -/
def checkNames : List String :=
  ["official_source_match", "image_authenticity", "fact_checker_status",
   "source_credibility", "temporal_consistency"]

/-- The fixed weights of `verify_article` line 97, in collector order
(official, image, fact-checker, credibility, temporal). -/
def checkWeights : List ℚ := [35/100, 15/100, 25/100, 15/100, 10/100]

/-- One entry of `_extract_flag_reasons` (lines 456-483): the canned
explanations emitted for a single named check whose score is below 0.60. -/
def reasonsFor (p : String × CheckResult) : List String :=
  let name := p.1
  let d := p.2
  if d.score < 60/100 then
    (if name = "official_source_match" ∧ d.status ≠ "verified" then
      ["Could not verify against official sources"] else []) ++
    (if name = "image_authenticity" ∧ d.status = "stock_photo" then
      ["Using stock photography instead of original images"] else []) ++
    (if name = "fact_checker_status" ∧ d.status = "debunked" then
      ["Fact-checkers have flagged this as false/misleading: " ++ d.details] else []) ++
    (if name = "source_credibility" ∧ d.status = "unreliable" then
      ["Source has credibility concerns: " ++ d.details] else []) ++
    (if name = "temporal_consistency" ∧
        (d.status = "future_dated" ∨ d.status = "timing_issue") then
      ["Suspicious timestamp: " ++ d.details] else [])
  else []

/-- The generic fallback reason of `_extract_flag_reasons` line 481. -/
def genericFlagReason : String :=
  "Overall verification score below threshold (< 65%)"

/-- `_extract_flag_reasons`: iterate over the checks dict in insertion
order collecting canned reasons; if none, a single generic reason. -/
def extractFlagReasons (checks : List (String × CheckResult)) : List String :=
  let reasons := checks.foldr (fun p acc => reasonsFor p ++ acc) []
  if reasons.isEmpty then [genericFlagReason] else reasons

/-- The record returned by `verify_article` (modulo the metadata fields
`article_id`, `title`, `url`, `timestamp`, which are copied unchanged). -/
structure VerificationResult where
  checks : List (String × CheckResult)
  overall_score : ℚ
  is_flagged : Bool
  flag_reasons : List String
deriving Repr, DecidableEq

/-- `verify_article` (lines 47-106), parameterised by the outcome of each
of the five gathered collectors: resolve exceptions to the neutral
result, take the weighted sum of the scores, flag below 0.65 and in that
case compute the flag reasons. -/
def verifyArticle (official image fact cred temporal : CheckOutcome) :
    VerificationResult :=
  let cs := [official, image, fact, cred, temporal].map resolveCheck
  let scores := cs.map (fun r => r.score)
  let overall := ((scores.zip checkWeights).map (fun p => p.1 * p.2)).foldl (· + ·) 0
  { checks := checkNames.zip cs
    overall_score := overall
    is_flagged := decide (overall < 65/100)
    flag_reasons :=
      if overall < 65/100 then extractFlagReasons (checkNames.zip cs) else [] }

/-- The flagged entry built by `_add_to_flagged_db` (lines 487-501);
the fields are irrelevant to the eviction policy, the summary keeps
score and status per check. -/
structure FlaggedEntry where
  id : String
  title : String
  url : String
  flagged_at : String
  verification_score : ℚ
  flag_reasons : List String
  checks_summary : List (String × ℚ × String)
deriving Repr, DecidableEq

/-- `_add_to_flagged_db` lines 503-507: append, then if the store holds
more than 100 entries keep only the last 100 (`self.flagged_news_db[-100:]`). -/
def addToFlaggedDb (db : List FlaggedEntry) (e : FlaggedEntry) : List FlaggedEntry :=
  let db2 := db ++ [e]
  if db2.length > 100 then db2.drop (db2.length - 100) else db2

/-- `verify_temporal_consistency` (lines 402-446).  Time is modelled in
seconds; `published_at` is `none` when the article has no such field
(the `if not published_at` early return), `some none` when the field is
present but `datetime.fromisoformat` raises (the `except` path, which
only overwrites the score with 0.70), and `some (some pub)` when it
parses.  `age_days = (now - pub_date).days` floors, hence `Int.fdiv`. -/
def verifyTemporalConsistency (now : Int) (published_at : Option (Option Int)) :
    CheckResult :=
  match published_at with
  | none => ⟨3/4, "consistent", "Timestamp appears reasonable"⟩
  | some none => ⟨7/10, "consistent", "Timestamp appears reasonable"⟩
  | some (some pub) =>
    if now < pub then
      ⟨1/5, "future_dated", "Article dated in the future - major credibility issue"⟩
    else
      let ageDays := Int.fdiv (now - pub) 86400
      if ageDays > 7 then
        ⟨3/5, "old_content", "Article is " ++ toString ageDays ++ " days old"⟩
      else if ageDays < 0 then
        ⟨3/10, "timing_issue", "Article timestamp has inconsistencies"⟩
      else
        ⟨17/20, "recent", "Recent article (" ++ toString ageDays ++ " days old)"⟩

/-- ASCII lower-casing of a character; Python `str.lower` restricted to
the ASCII range, which covers all inputs handled by these services. -/
def asciiLowerChar (c : Char) : Char :=
  if 65 ≤ c.toNat ∧ c.toNat ≤ 90 then Char.ofNat (c.toNat + 32) else c

/-- Python `str.lower` on ASCII strings. -/
def pyLower (s : String) : String := ⟨s.data.map asciiLowerChar⟩

/-- Python whitespace characters (the set used by `str.strip` and
`str.split`): space, tab, newline, carriage return, vertical tab, form feed. -/
def pyWsChar (c : Char) : Bool :=
  c.toNat = 32 || c.toNat = 9 || c.toNat = 10 || c.toNat = 13 ||
  c.toNat = 11 || c.toNat = 12

/-- Python `str.strip()`: drop leading and trailing whitespace. -/
def pyStrip (s : String) : String :=
  ⟨((s.data.dropWhile pyWsChar).reverse.dropWhile pyWsChar).reverse⟩

/-- Substring test on character lists; `infixOf n h` is Python `n in h`. -/
def infixOf (needle : List Char) : List Char → Bool
  | [] => needle.isEmpty
  | c :: t => needle.isPrefixOf (c :: t) || infixOf needle t

/-- Python `needle in hay` on strings. -/
def strIn (needle hay : String) : Bool := infixOf needle.data hay.data

/-- Helper of `pySplit`: walk the characters accumulating the current
word (reversed); whitespace ends a word, empty words are dropped. -/
def splitWsAux : List Char → List Char → List String
  | [], acc => if acc.isEmpty then [] else [⟨acc.reverse⟩]
  | c :: t, acc =>
    if pyWsChar c then
      if acc.isEmpty then splitWsAux t [] else ⟨acc.reverse⟩ :: splitWsAux t []
    else splitWsAux t (c :: acc)

/-- Python `str.split()` with no argument: split on whitespace runs,
discarding empty tokens. -/
def pySplit (s : String) : List String := splitWsAux s.data []

/-- Size of `set(claim1.split()) & set(claim2.split())` from
`_detect_contradiction` lines 104-106. -/
def commonWordsCount (c1 c2 : String) : Nat :=
  ((pySplit c1).dedup.filter (fun w => (pySplit c2).contains w)).length

/-- The `contradictory_pairs` table of `_detect_contradiction` lines 92-99. -/
def contradictoryPairs : List (String × String) :=
  [("will", "will not"), ("confirmed", "denied"), ("true", "false"),
   ("increase", "decrease"), ("approve", "reject"), ("support", "oppose")]

/-- `_detect_contradiction` (lines 89-110 of
`temporal_verification_service.py`): some antonym pair occurs in opposite
claims (Python substring test) and the claims share more than 3 distinct
word tokens. -/
def detectContradiction (claim1 claim2 : String) : Bool :=
  contradictoryPairs.any (fun p =>
    ((strIn p.1 claim1 && strIn p.2 claim2) || (strIn p.2 claim1 && strIn p.1 claim2)) &&
    decide (commonWordsCount claim1 claim2 > 3))

/-- 2^32, the word modulus of the hash implementations. -/
def M32 : Nat := 4294967296

/-- Right rotation of a 32-bit word represented as a `Nat` below `M32`. -/
def rotr32 (n x : Nat) : Nat := ((x >>> n) ||| (x <<< (32 - n))) % M32

/-- Left rotation of a 32-bit word represented as a `Nat` below `M32`. -/
def rotl32 (n x : Nat) : Nat := ((x <<< n) ||| (x >>> (32 - n))) % M32

/-- Big-endian 8-byte encoding of a length in bits. -/
def be64 (n : Nat) : List Nat :=
  [(n >>> 56) % 256, (n >>> 48) % 256, (n >>> 40) % 256, (n >>> 32) % 256,
   (n >>> 24) % 256, (n >>> 16) % 256, (n >>> 8) % 256, n % 256]

/-- Little-endian 8-byte encoding of a length in bits. -/
def le64 (n : Nat) : List Nat :=
  [n % 256, (n >>> 8) % 256, (n >>> 16) % 256, (n >>> 24) % 256,
   (n >>> 32) % 256, (n >>> 40) % 256, (n >>> 48) % 256, (n >>> 56) % 256]

/-- Merkle-Damgard padding with a big-endian bit length (SHA-256). -/
def sha256Pad (msg : List Nat) : List Nat :=
  let l := msg.length
  let zeros := (64 + 56 - (l + 1) % 64) % 64
  msg ++ 128 :: List.replicate zeros 0 ++ be64 (l * 8)

/-- Merkle-Damgard padding with a little-endian bit length (MD5). -/
def md5Pad (msg : List Nat) : List Nat :=
  let l := msg.length
  let zeros := (64 + 56 - (l + 1) % 64) % 64
  msg ++ 128 :: List.replicate zeros 0 ++ le64 (l * 8)

/-- Group bytes into big-endian 32-bit words. -/
def toWordsBE : List Nat → List Nat
  | b0 :: b1 :: b2 :: b3 :: t => (((b0 * 256 + b1) * 256 + b2) * 256 + b3) :: toWordsBE t
  | _ => []

/-- Group bytes into little-endian 32-bit words. -/
def toWordsLE : List Nat → List Nat
  | b0 :: b1 :: b2 :: b3 :: t => (((b3 * 256 + b2) * 256 + b1) * 256 + b0) :: toWordsLE t
  | _ => []

/-- Split a byte list into its 64-byte blocks (the fuel is the block count). -/
def chunks64 : Nat → List Nat → List (List Nat)
  | 0, _ => []
  | n + 1, l => l.take 64 :: chunks64 n (l.drop 64)

/-- The SHA-256 round constants. -/
def sha256K : List Nat :=
  [1116352408, 1899447441, 3049323471, 3921009573, 961987163, 1508970993,
   2453635748, 2870763221, 3624381080, 310598401, 607225278, 1426881987,
   1925078388, 2162078206, 2614888103, 3248222580, 3835390401, 4022224774,
   264347078, 604807628, 770255983, 1249150122, 1555081692, 1996064986,
   2554220882, 2821834349, 2952996808, 3210313671, 3336571891, 3584528711,
   113926993, 338241895, 666307205, 773529912, 1294757372, 1396182291,
   1695183700, 1986661051, 2177026350, 2456956037, 2730485921, 2820302411,
   3259730800, 3345764771, 3516065817, 3600352804, 4094571909, 275423344,
   430227734, 506948616, 659060556, 883997877, 958139571, 1322822218,
   1537002063, 1747873779, 1955562222, 2024104815, 2227730452, 2361852424,
   2428436474, 2756734187, 3204031479, 3329325298]

/-- The SHA-256 initial hash state. -/
def sha256H0 : List Nat :=
  [1779033703, 3144134277, 1013904242, 2773480762, 1359893119, 2600822924,
   528734635, 1541459225]

/-- Extend the 16 message words to 64 (the fuel counts remaining words). -/
def sha256Extend : Nat → List Nat → List Nat
  | 0, w => w
  | n + 1, w =>
    let i := w.length
    let w15 := w.getD (i - 15) 0
    let w2 := w.getD (i - 2) 0
    let s0 := rotr32 7 w15 ^^^ rotr32 18 w15 ^^^ (w15 >>> 3)
    let s1 := rotr32 17 w2 ^^^ rotr32 19 w2 ^^^ (w2 >>> 10)
    sha256Extend n (w ++ [(w.getD (i - 16) 0 + s0 + w.getD (i - 7) 0 + s1) % M32])

/-- One SHA-256 compression round on the eight-word working state. -/
def sha256Compress (st : List Nat) (kw : Nat × Nat) : List Nat :=
  match st with
  | [a, b, c, d, e, f, g, h] =>
    let s1 := rotr32 6 e ^^^ rotr32 11 e ^^^ rotr32 25 e
    let ch := (e &&& f) ^^^ ((e ^^^ 4294967295) &&& g)
    let t1 := (h + s1 + ch + kw.1 + kw.2) % M32
    let s0 := rotr32 2 a ^^^ rotr32 13 a ^^^ rotr32 22 a
    let mj := (a &&& b) ^^^ (a &&& c) ^^^ (b &&& c)
    let t2 := (s0 + mj) % M32
    [(t1 + t2) % M32, a, b, c, (d + t1) % M32, e, f, g]
  | other => other

/-- Process one 64-byte block of SHA-256. -/
def sha256Block (h : List Nat) (block : List Nat) : List Nat :=
  let w := sha256Extend 48 (toWordsBE block)
  let st := (sha256K.zip w).foldl sha256Compress h
  (h.zip st).map (fun p => (p.1 + p.2) % M32)

/-- SHA-256 digest of a byte list, as eight 32-bit words. -/
def sha256Words (msg : List Nat) : List Nat :=
  let padded := sha256Pad msg
  (chunks64 (padded.length / 64) padded).foldl sha256Block sha256H0

/-- Lower-case hexadecimal digit. -/
def hexChar (n : Nat) : Char :=
  if n < 10 then Char.ofNat (48 + n) else Char.ofNat (87 + n)

/-- Eight hex characters of a 32-bit word, most significant first. -/
def hex8 (n : Nat) : List Char :=
  [hexChar ((n >>> 28) % 16), hexChar ((n >>> 24) % 16), hexChar ((n >>> 20) % 16),
   hexChar ((n >>> 16) % 16), hexChar ((n >>> 12) % 16), hexChar ((n >>> 8) % 16),
   hexChar ((n >>> 4) % 16), hexChar (n % 16)]

/-- `hashlib.sha256(msg).hexdigest()`. -/
def sha256Hex (msg : List Nat) : String :=
  ⟨(sha256Words msg).foldr (fun w acc => hex8 w ++ acc) []⟩

/-- UTF-8 encoding of a character list (Python `str.encode()`). -/
def utf8Bytes : List Char → List Nat
  | [] => []
  | c :: t =>
    let n := c.toNat
    (if n < 128 then [n]
     else if n < 2048 then [192 ||| (n >>> 6), 128 ||| (n &&& 63)]
     else if n < 65536 then
       [224 ||| (n >>> 12), 128 ||| ((n >>> 6) &&& 63), 128 ||| (n &&& 63)]
     else
       [240 ||| (n >>> 18), 128 ||| ((n >>> 12) &&& 63),
        128 ||| ((n >>> 6) &&& 63), 128 ||| (n &&& 63)]) ++ utf8Bytes t

/-- `_generate_claim_hash` (lines 33-35 of
`temporal_verification_service.py`):
`hashlib.sha256(claim.lower().strip().encode()).hexdigest()[:16]`. -/
def generateClaimHash (claim : String) : String :=
  ⟨(sha256Hex (utf8Bytes (pyStrip (pyLower claim)).data)).data.take 16⟩

/-- The MD5 sine-derived round constants. -/
def md5K : List Nat :=
  [3614090360, 3905402710, 606105819, 3250441966, 4118548399, 1200080426,
   2821735955, 4249261313, 1770035416, 2336552879, 4294925233, 2304563134,
   1804603682, 4254626195, 2792965006, 1236535329, 4129170786, 3225465664,
   643717713, 3921069994, 3593408605, 38016083, 3634488961, 3889429448,
   568446438, 3275163606, 4107603335, 1163531501, 2850285829, 4243563512,
   1735328473, 2368359562, 4294588738, 2272392833, 1839030562, 4259657740,
   2763975236, 1272893353, 4139469664, 3200236656, 681279174, 3936430074,
   3572445317, 76029189, 3654602809, 3873151461, 530742520, 3299628645,
   4096336452, 1126891415, 2878612391, 4237533241, 1700485571, 2399980690,
   4293915773, 2240044497, 1873313359, 4264355552, 2734768916, 1309151649,
   4149444226, 3174756917, 718787259, 3951481745]

/-- The MD5 per-round left-rotation amounts. -/
def md5S : List Nat :=
  [7, 12, 17, 22, 7, 12, 17, 22, 7, 12, 17, 22, 7, 12, 17, 22,
   5, 9, 14, 20, 5, 9, 14, 20, 5, 9, 14, 20, 5, 9, 14, 20,
   4, 11, 16, 23, 4, 11, 16, 23, 4, 11, 16, 23, 4, 11, 16, 23,
   6, 10, 15, 21, 6, 10, 15, 21, 6, 10, 15, 21, 6, 10, 15, 21]

/-- One MD5 round on the working state `(A, B, C, D)` with message words `M`. -/
def md5Round (M : List Nat) (st : Nat × Nat × Nat × Nat) (i : Nat) :
    Nat × Nat × Nat × Nat :=
  let A := st.1
  let B := st.2.1
  let C := st.2.2.1
  let D := st.2.2.2
  let F :=
    if i < 16 then (B &&& C) ||| ((B ^^^ 4294967295) &&& D)
    else if i < 32 then (D &&& B) ||| ((D ^^^ 4294967295) &&& C)
    else if i < 48 then B ^^^ C ^^^ D
    else C ^^^ (B ||| (D ^^^ 4294967295))
  let g :=
    if i < 16 then i % 16
    else if i < 32 then (5 * i + 1) % 16
    else if i < 48 then (3 * i + 5) % 16
    else (7 * i) % 16
  let F2 := (F + A + md5K.getD i 0 + M.getD g 0) % M32
  (D, (B + rotl32 (md5S.getD i 0) F2) % M32, B, C)

/-- Process one 64-byte block of MD5. -/
def md5Block (h : Nat × Nat × Nat × Nat) (block : List Nat) :
    Nat × Nat × Nat × Nat :=
  let M := toWordsLE block
  let st := (List.range 64).foldl (md5Round M) h
  ((h.1 + st.1) % M32, (h.2.1 + st.2.1) % M32,
   (h.2.2.1 + st.2.2.1) % M32, (h.2.2.2 + st.2.2.2) % M32)

/-- The MD5 initial state. -/
def md5H0 : Nat × Nat × Nat × Nat := (1732584193, 4023233417, 2562383102, 271733878)

/-- Hex encoding of one MD5 state word, little-endian byte order. -/
def md5WordHex (w : Nat) : List Char :=
  [hexChar ((w >>> 4) % 16), hexChar (w % 16),
   hexChar ((w >>> 12) % 16), hexChar ((w >>> 8) % 16),
   hexChar ((w >>> 20) % 16), hexChar ((w >>> 16) % 16),
   hexChar ((w >>> 28) % 16), hexChar ((w >>> 24) % 16)]

/-- `hashlib.md5(msg).hexdigest()`. -/
def md5Hex (msg : List Nat) : String :=
  let padded := md5Pad msg
  let h := (chunks64 (padded.length / 64) padded).foldl md5Block md5H0
  ⟨md5WordHex h.1 ++ md5WordHex h.2.1 ++ md5WordHex h.2.2.1 ++ md5WordHex h.2.2.2⟩

/-- `_get_cache_key` (lines 612-615 of `atie_service.py`):
`"atie:" + md5((text + (source_url or "")).encode()).hexdigest()`. -/
def getCacheKey (text : String) (source_url : Option String) : String :=
  let content := text ++ source_url.getD ""
  "atie:" ++ md5Hex (utf8Bytes content.data)

/-- The cache key as computed at the top of `analyze_textual_integrity`
(line 661 of `atie_service.py`): `self._get_cache_key(text, source_url)`.
The `enable_cross_verification` argument of the analysis is accepted here
to record that the key does not depend on it. -/
def analyzeCacheKey (text : String) (source_url : Option String)
    (_enable_cross_verification : Bool) : String :=
  getCacheKey text source_url

/-- One entry of the `contradictions` list built by `_find_contradictions`
(lines 80-85 of `temporal_verification_service.py`). -/
structure Contradiction where
  claim_id : String
  original_claim : String
  timestamp : String
  article_url : String
deriving Repr, DecidableEq

/-- One claim entry of the fact timeline (lines 41-49). -/
structure ClaimEntry where
  claim_id : String
  claim_text : String
  source : String
  article_url : String
  timestamp : String
  verified : Bool
  contradictions : List Contradiction
deriving Repr, DecidableEq

/-- The `fact_timeline` dict: a `claims` list and a `sources` map from
source name to the list of `(claim_id, timestamp)` references.  The map
is a key-ordered association list, as a JSON object with insertion order. -/
structure Timeline where
  claims : List ClaimEntry
  sources : List (String × List (String × String))
deriving Repr, DecidableEq

/-- The fresh timeline created when no database file exists (line 26). -/
def emptyTimeline : Timeline := ⟨[], []⟩

/-- Point update of an association list: replace the value at the first
occurrence of the key, or append the binding. -/
def setKey (l : List (String × List (String × String))) (k : String)
    (v : List (String × String)) : List (String × List (String × String)) :=
  match l with
  | [] => [(k, v)]
  | p :: t => if p.1 = k then (k, v) :: t else p :: setKey t k v

/-- `_find_contradictions` (lines 69-87): when the source already has a
history, collect every earlier claim of the same source whose lowered
text contradicts the lowered new claim. -/
def findContradictions (claim source : String) (tl : Timeline) :
    List Contradiction :=
  if (tl.sources.lookup source).isSome then
    ((tl.claims.filter (fun ce => ce.source == source)).filter
      (fun ce => detectContradiction (pyLower claim) (pyLower ce.claim_text))).map
      (fun ce => ⟨ce.claim_id, ce.claim_text, ce.timestamp, ce.article_url⟩)
  else []

/-- `add_claim` (lines 37-67), with the wall-clock timestamp passed in:
hash the claim, search for contradictions among the source's earlier
claims, append the entry and record the source reference.  Returns the
new timeline and the claim hash that the method returns. -/
def addClaim (now claim source article_url : String) (verified : Bool)
    (tl : Timeline) : Timeline × String :=
  let claim_hash := generateClaimHash claim
  let contradictions := findContradictions claim source tl
  let entry : ClaimEntry :=
    ⟨claim_hash, claim, source, article_url, now, verified, contradictions⟩
  let refs := (tl.sources.lookup source).getD []
  (⟨tl.claims ++ [entry], setKey tl.sources source (refs ++ [(claim_hash, now)])⟩,
   claim_hash)

/-- A citation graph, embedded as the (duplicate-free) edge list of the
`networkx.DiGraph` held by `NetworkAnalyzer`. -/
abbrev CitationGraph := List (String × String)

/-- `add_citation` (lines 40-50 of `network_analysis_service.py`):
`DiGraph.add_edge` is idempotent on existing edges. -/
def addCitation (g : CitationGraph) (citing cited : String) : CitationGraph :=
  if g.contains (citing, cited) then g else g ++ [(citing, cited)]

/-- The node set of the graph (every endpoint of an edge). -/
def nodesOf (g : CitationGraph) : List String :=
  (g.map (fun e => e.1) ++ g.map (fun e => e.2)).dedup

/-- Successors of a node: targets of its outgoing edges. -/
def succsOf (g : CitationGraph) (v : String) : List String :=
  (g.filter (fun e => e.1 == v)).map (fun e => e.2)

/-- DFS count of the elementary cycles through `s`: simple paths leaving
`cur` over unvisited nodes that close back at `s`.  Each elementary
cycle containing `s` is counted exactly once, at its rotation starting
at `s` (this is `nx.simple_cycles` filtered to the cycles through `s`). -/
def countCyclesFrom (g : CitationGraph) (s : String) :
    Nat → String → List String → Nat
  | 0, _, _ => 0
  | fuel + 1, cur, visited =>
    (succsOf g cur).foldl (fun acc n =>
      acc + (if n == s then 1 else 0) +
        (if n == s || visited.contains n then 0
         else countCyclesFrom g s fuel n (n :: visited))) 0

/-- The `cycle_count` reported by `detect_circular_reporting`
(lines 52-72): the number of simple cycles of the graph containing `s`,
and `0` when `s` is not a node of the graph. -/
def cycleCount (g : CitationGraph) (s : String) : Nat :=
  if (nodesOf g).contains s then
    countCyclesFrom g s ((nodesOf g).length + 1) s [s]
  else 0

/-- List of in-neighbours of `s` (the `citing_sources` of lines 82-83). -/
def citersOf (g : CitationGraph) (s : String) : List String :=
  (g.filter (fun e => e.2 == s)).map (fun e => e.1)

/-- `calculate_trust_score` (lines 74-110), over the graph and the
stored `trust_scores` map: base 0.5, adjusted by the average stored
trust of the citers, penalised by the simple cycles through the source,
rewarded for citing more than five distinct sources, clamped to [0, 1]. -/
def calculateTrustScore (g : CitationGraph) (trust : List (String × ℚ))
    (s : String) : ℚ :=
  if (nodesOf g).contains s then
    let score0 : ℚ := 1/2
    let citers := citersOf g s
    let score1 :=
      if citers.isEmpty then score0
      else
        let avg := (citers.map (fun c => (trust.lookup c).getD (1/2))).foldl (· + ·) 0 /
          (citers.length : ℚ)
        score0 + (avg - 1/2) * (3/10)
    let score2 := score1 - (1/5) * (cycleCount g s : ℚ)
    let cited := (g.filter (fun e => e.1 == s)).map (fun e => e.2)
    let score3 := if cited.dedup.length > 5 then score2 + 1/10 else score2
    max 0 (min 1 score3)
  else 1/2

/-- The trust-score formula as the specification words it: the clamp to
[0, 1] of 0.5, plus 0.3 times (average stored trust of the citers minus
0.5) when there is at least one citer, minus 0.2 times the number of
simple cycles containing the source, plus 0.1 when the source cites more
than 5 distinct sources. -/
def trustScoreSpec (g : CitationGraph) (trust : List (String × ℚ))
    (s : String) : ℚ :=
  let citers := citersOf g s
  let citedCount := ((g.filter (fun e => e.1 == s)).map (fun e => e.2)).dedup.length
  let avg := (citers.map (fun c => (trust.lookup c).getD (1/2))).foldl (· + ·) 0 /
    (citers.length : ℚ)
  max 0 (min 1 ((1:ℚ)/2 + (if citers.isEmpty then 0 else (3/10) * (avg - 1/2))
    - (1/5) * (cycleCount g s : ℚ) + (if citedCount > 5 then 1/10 else 0)))

/-- Overall score of a verification call whose five collectors return
the given scores (statuses and details do not enter the aggregation). -/
def overallOf (o i f c t : ℚ) : ℚ :=
  (verifyArticle (Except.ok ⟨o, "", ""⟩) (Except.ok ⟨i, "", ""⟩)
    (Except.ok ⟨f, "", ""⟩) (Except.ok ⟨c, "", ""⟩)
    (Except.ok ⟨t, "", ""⟩)).overall_score

/-- A concrete verification call: fact-checkers debunked the article
(score 0.30) and the source is HTTP-only (`questionable`, score 0.50);
the remaining collectors return their neutral defaults. -/
def resultC6 : VerificationResult :=
  verifyArticle
    (Except.ok ⟨7/10, "not_found", "No official source verification available"⟩)
    (Except.ok ⟨3/4, "no_image", "No image to verify"⟩)
    (Except.ok ⟨3/10, "debunked", "Flagged as misleading by https://www.altnews.in"⟩)
    (Except.ok ⟨1/2, "questionable", "Source does not use secure connection"⟩)
    (Except.ok ⟨3/4, "consistent", "Timestamp appears reasonable"⟩)

/-- Remove every whitespace character; two texts with the same image
under this map (and the same letters) differ only in whitespace. -/
def removeAllWs (s : String) : String := ⟨s.data.filter (fun c => !pyWsChar c)⟩

/-- A throwaway flagged entry used to instantiate the store lemmas. -/
def someFlagged : FlaggedEntry := ⟨"id", "title", "url", "now", 0, [], []⟩

lemma verifyArticle_overall (eo ei ef ec et : CheckOutcome) :
    (verifyArticle eo ei ef ec et).overall_score =
      (resolveCheck eo).score * (35/100) + (resolveCheck ei).score * (15/100) +
      (resolveCheck ef).score * (25/100) + (resolveCheck ec).score * (15/100) +
      (resolveCheck et).score * (10/100) := by
  simp [verifyArticle, checkWeights]

lemma verifyArticle_flag_iff (eo ei ef ec et : CheckOutcome) :
    (verifyArticle eo ei ef ec et).is_flagged = true ↔
      (verifyArticle eo ei ef ec et).overall_score < 65/100 := by
  simp [verifyArticle]

lemma overallOf_eq (o i f c t : ℚ) :
    overallOf o i f c t =
      o * (35/100) + i * (15/100) + f * (25/100) + c * (15/100) + t * (10/100) := by
  simp [overallOf, verifyArticle_overall, resolveCheck]

/-- C1: every verification call aggregates the five check scores with
the fixed weights official_source 0.35, fact_checker 0.25,
source_credibility 0.15, temporal_consistency 0.10, image_authenticity
0.15, and flags exactly when the overall score is below 0.65; the
Scenario A scores 0.95, 0.70, 0.80, 0.85, 0.75 give overall 0.825 and
no flag. -/
theorem c1_weighted_aggregation :
    (∀ eo ei ef ec et : CheckOutcome,
      (verifyArticle eo ei ef ec et).overall_score =
        (resolveCheck eo).score * (35/100) + (resolveCheck ef).score * (25/100) +
        (resolveCheck ec).score * (15/100) + (resolveCheck et).score * (10/100) +
        (resolveCheck ei).score * (15/100)
      ∧ ((verifyArticle eo ei ef ec et).is_flagged = true ↔
          (verifyArticle eo ei ef ec et).overall_score < 65/100))
    ∧ (verifyArticle (Except.ok ⟨95/100, "verified", ""⟩)
        (Except.ok ⟨75/100, "no_image", ""⟩)
        (Except.ok ⟨70/100, "not_checked", ""⟩)
        (Except.ok ⟨80/100, "trusted", ""⟩)
        (Except.ok ⟨85/100, "recent", ""⟩)).overall_score = 825/1000
    ∧ (verifyArticle (Except.ok ⟨95/100, "verified", ""⟩)
        (Except.ok ⟨75/100, "no_image", ""⟩)
        (Except.ok ⟨70/100, "not_checked", ""⟩)
        (Except.ok ⟨80/100, "trusted", ""⟩)
        (Except.ok ⟨85/100, "recent", ""⟩)).is_flagged = false := by
  refine ⟨fun eo ei ef ec et => ⟨?_, verifyArticle_flag_iff eo ei ef ec et⟩, ?_, ?_⟩
  · rw [verifyArticle_overall]; ring
  · rw [verifyArticle_overall]; norm_num [resolveCheck]
  · rw [Bool.eq_false_iff]
    intro hf
    have h := (verifyArticle_flag_iff _ _ _ _ _).mp hf
    rw [verifyArticle_overall] at h
    norm_num [resolveCheck] at h

/-- C2: with the weights fixed at their defaults, lowering any single
check score (the scores lying in [0, 1]) never increases the overall
score; one conjunct per component, in collector order. -/
theorem c2_aggregation_monotone :
    (∀ o o2 i f c t : ℚ, 0 ≤ o2 → o2 ≤ o → o ≤ 1 →
      overallOf o2 i f c t ≤ overallOf o i f c t)
    ∧ (∀ o i i2 f c t : ℚ, 0 ≤ i2 → i2 ≤ i → i ≤ 1 →
      overallOf o i2 f c t ≤ overallOf o i f c t)
    ∧ (∀ o i f f2 c t : ℚ, 0 ≤ f2 → f2 ≤ f → f ≤ 1 →
      overallOf o i f2 c t ≤ overallOf o i f c t)
    ∧ (∀ o i f c c2 t : ℚ, 0 ≤ c2 → c2 ≤ c → c ≤ 1 →
      overallOf o i f c2 t ≤ overallOf o i f c t)
    ∧ (∀ o i f c t t2 : ℚ, 0 ≤ t2 → t2 ≤ t → t ≤ 1 →
      overallOf o i f c t2 ≤ overallOf o i f c t) := by
  refine ⟨?_, ?_, ?_, ?_, ?_⟩ <;>
    (intro a b x y z w h0 hle h1; rw [overallOf_eq, overallOf_eq]; linarith)

/-- Witness for C2: dropping the official-source score from 0.9 to 0.4
does not increase the overall score. -/
theorem c2_witness :
    overallOf (2/5) 1 1 1 1 ≤ overallOf (9/10) 1 1 1 1 :=
  c2_aggregation_monotone.1 (9/10) (2/5) 1 1 1 1 (by norm_num) (by norm_num)
    (by norm_num)

lemma addToFlaggedDb_eq_drop (db : List FlaggedEntry) (e : FlaggedEntry)
    (h : db.length ≤ 100) :
    addToFlaggedDb db e = (db ++ [e]).drop (db.length + 1 - 100) := by
  simp only [addToFlaggedDb, List.length_append, List.length_singleton]
  by_cases hc : db.length + 1 > 100
  · simp [hc]
  · have h0 : db.length + 1 - 100 = 0 := by omega
    simp [hc, h0]

lemma addToFlaggedDb_length_le (db : List FlaggedEntry) (e : FlaggedEntry)
    (h : db.length ≤ 100) : (addToFlaggedDb db e).length ≤ 100 := by
  rw [addToFlaggedDb_eq_drop db e h]
  simp only [List.length_drop, List.length_append, List.length_singleton]
  omega

lemma foldl_addToFlaggedDb (es : List FlaggedEntry) :
    ∀ db : List FlaggedEntry, db.length ≤ 100 →
      es.foldl addToFlaggedDb db = (db ++ es).drop ((db ++ es).length - 100) := by
  induction es with
  | nil =>
    intro db h
    have h0 : db.length - 100 = 0 := by omega
    simp [h0]
  | cons e es ih =>
    intro db h
    rw [List.foldl_cons, ih (addToFlaggedDb db e) (addToFlaggedDb_length_le db e h),
      addToFlaggedDb_eq_drop db e h]
    have hk : db.length + 1 - 100 ≤ (db ++ [e]).length := by
      simp only [List.length_append, List.length_singleton]; omega
    rw [← List.drop_append_of_le_length hk, List.drop_drop]
    simp only [List.append_assoc, List.singleton_append, List.length_append,
      List.length_drop, List.length_cons]
    exact congrArg (fun n => (db ++ e :: es).drop n) (by omega)

/-- C3: the flagged-item store built by repeated insertion holds at most
100 entries; an insertion into a full store evicts exactly the single
oldest entry; after any sequence of insertions starting from the empty
store the content is the suffix of the 100 most recent insertions, so
150 insertions leave exactly the last 100. -/
theorem c3_flagged_store_fifo_bound :
    (∀ (db : List FlaggedEntry) (e : FlaggedEntry), db.length ≤ 100 →
      (addToFlaggedDb db e).length ≤ 100)
    ∧ (∀ (db : List FlaggedEntry) (e : FlaggedEntry), db.length = 100 →
      addToFlaggedDb db e = db.tail ++ [e])
    ∧ (∀ es : List FlaggedEntry,
      es.foldl addToFlaggedDb [] = es.drop (es.length - 100))
    ∧ (∀ es : List FlaggedEntry, es.length = 150 →
      (es.foldl addToFlaggedDb []).length = 100 ∧
        es.foldl addToFlaggedDb [] = es.drop 50) := by
  have hfold : ∀ es : List FlaggedEntry,
      es.foldl addToFlaggedDb [] = es.drop (es.length - 100) := by
    intro es
    have := foldl_addToFlaggedDb es [] (by simp)
    simpa using this
  refine ⟨fun db e h => addToFlaggedDb_length_le db e h, fun db e h => ?_, hfold,
    fun es h => ?_⟩
  · rw [addToFlaggedDb_eq_drop db e (le_of_eq h), h]
    have h1 : (1 : ℕ) ≤ db.length := by omega
    rw [show 100 + 1 - 100 = 1 from rfl,
      List.drop_append_of_le_length (by omega), List.drop_one]
  · constructor
    · rw [hfold es, List.length_drop, h]
    · rw [hfold es, h]

/-- Witness for C3: a store of 100 entries stays at 100 after an insert,
the insert evicts the single oldest entry, and 150 insertions into the
empty store leave exactly 100 entries. -/
theorem c3_witness :
    (addToFlaggedDb (List.replicate 100 someFlagged) someFlagged).length ≤ 100
    ∧ addToFlaggedDb (List.replicate 100 someFlagged) someFlagged =
        (List.replicate 100 someFlagged).tail ++ [someFlagged]
    ∧ ((List.replicate 150 someFlagged).foldl addToFlaggedDb []).length = 100 :=
  ⟨c3_flagged_store_fifo_bound.1 (List.replicate 100 someFlagged) someFlagged
      (by simp),
   c3_flagged_store_fifo_bound.2.1 (List.replicate 100 someFlagged) someFlagged
      (by simp),
   ((c3_flagged_store_fifo_bound.2.2.2 (List.replicate 150 someFlagged)
      (by simp))).1⟩

/-- C5: if one collector raises (its gathered outcome is an exception),
the returned record stores the neutral result with score 0.5 and status
error for exactly that check, the 0.5 enters the weighted sum in that
check's slot, the other collectors' results are recorded unchanged, and
the call still produces a complete result; one conjunct per collector. -/
theorem c5_collector_failure_neutral :
    (∀ (msg : String) (ri rf rc rt : CheckResult),
      (verifyArticle (Except.error msg) (Except.ok ri) (Except.ok rf)
          (Except.ok rc) (Except.ok rt)).checks =
        [("official_source_match", ⟨1/2, "error", msg⟩),
         ("image_authenticity", ri), ("fact_checker_status", rf),
         ("source_credibility", rc), ("temporal_consistency", rt)]
      ∧ (verifyArticle (Except.error msg) (Except.ok ri) (Except.ok rf)
          (Except.ok rc) (Except.ok rt)).overall_score =
        (1/2) * (35/100) + ri.score * (15/100) + rf.score * (25/100) +
          rc.score * (15/100) + rt.score * (10/100))
    ∧ (∀ (msg : String) (ro rf rc rt : CheckResult),
      (verifyArticle (Except.ok ro) (Except.error msg) (Except.ok rf)
          (Except.ok rc) (Except.ok rt)).checks =
        [("official_source_match", ro),
         ("image_authenticity", ⟨1/2, "error", msg⟩),
         ("fact_checker_status", rf), ("source_credibility", rc),
         ("temporal_consistency", rt)]
      ∧ (verifyArticle (Except.ok ro) (Except.error msg) (Except.ok rf)
          (Except.ok rc) (Except.ok rt)).overall_score =
        ro.score * (35/100) + (1/2) * (15/100) + rf.score * (25/100) +
          rc.score * (15/100) + rt.score * (10/100))
    ∧ (∀ (msg : String) (ro ri rc rt : CheckResult),
      (verifyArticle (Except.ok ro) (Except.ok ri) (Except.error msg)
          (Except.ok rc) (Except.ok rt)).checks =
        [("official_source_match", ro), ("image_authenticity", ri),
         ("fact_checker_status", ⟨1/2, "error", msg⟩),
         ("source_credibility", rc), ("temporal_consistency", rt)]
      ∧ (verifyArticle (Except.ok ro) (Except.ok ri) (Except.error msg)
          (Except.ok rc) (Except.ok rt)).overall_score =
        ro.score * (35/100) + ri.score * (15/100) + (1/2) * (25/100) +
          rc.score * (15/100) + rt.score * (10/100))
    ∧ (∀ (msg : String) (ro ri rf rt : CheckResult),
      (verifyArticle (Except.ok ro) (Except.ok ri) (Except.ok rf)
          (Except.error msg) (Except.ok rt)).checks =
        [("official_source_match", ro), ("image_authenticity", ri),
         ("fact_checker_status", rf),
         ("source_credibility", ⟨1/2, "error", msg⟩),
         ("temporal_consistency", rt)]
      ∧ (verifyArticle (Except.ok ro) (Except.ok ri) (Except.ok rf)
          (Except.error msg) (Except.ok rt)).overall_score =
        ro.score * (35/100) + ri.score * (15/100) + rf.score * (25/100) +
          (1/2) * (15/100) + rt.score * (10/100))
    ∧ (∀ (msg : String) (ro ri rf rc : CheckResult),
      (verifyArticle (Except.ok ro) (Except.ok ri) (Except.ok rf)
          (Except.ok rc) (Except.error msg)).checks =
        [("official_source_match", ro), ("image_authenticity", ri),
         ("fact_checker_status", rf), ("source_credibility", rc),
         ("temporal_consistency", ⟨1/2, "error", msg⟩)]
      ∧ (verifyArticle (Except.ok ro) (Except.ok ri) (Except.ok rf)
          (Except.ok rc) (Except.error msg)).overall_score =
        ro.score * (35/100) + ri.score * (15/100) + rf.score * (25/100) +
          rc.score * (15/100) + (1/2) * (10/100)) := by
  refine ⟨?_, ?_, ?_, ?_, ?_⟩ <;>
    (intro msg r1 r2 r3 r4;
     exact ⟨by simp [verifyArticle, checkNames, resolveCheck],
       by rw [verifyArticle_overall]; simp [resolveCheck]⟩)

lemma extractFlagReasons_eq (cks : List (String × CheckResult)) :
    extractFlagReasons cks =
      if (cks.foldr (fun p acc => reasonsFor p ++ acc) []).isEmpty then
        [genericFlagReason]
      else cks.foldr (fun p acc => reasonsFor p ++ acc) [] := rfl

lemma mem_extractFlagReasons {cks : List (String × CheckResult)} {r : String}
    (h : r ∈ cks.foldr (fun p acc => reasonsFor p ++ acc) []) :
    r ∈ extractFlagReasons cks := by
  rw [extractFlagReasons_eq]
  cases hfold : cks.foldr (fun p acc => reasonsFor p ++ acc) [] with
  | nil => rw [hfold] at h; exact absurd h (List.not_mem_nil r)
  | cons a t =>
    rw [hfold] at h
    simpa using h

lemma reasonsFor_official (d : CheckResult) (h1 : d.score < 60/100)
    (h2 : d.status ≠ "verified") :
    reasonsFor ("official_source_match", d) =
      ["Could not verify against official sources"] := by
  simp [reasonsFor, h1, h2]

lemma reasonsFor_image (d : CheckResult) (h1 : d.score < 60/100)
    (h2 : d.status = "stock_photo") :
    reasonsFor ("image_authenticity", d) =
      ["Using stock photography instead of original images"] := by
  simp [reasonsFor, h1, h2]

lemma reasonsFor_fact (d : CheckResult) (h1 : d.score < 60/100)
    (h2 : d.status = "debunked") :
    reasonsFor ("fact_checker_status", d) =
      ["Fact-checkers have flagged this as false/misleading: " ++ d.details] := by
  simp [reasonsFor, h1, h2]

lemma reasonsFor_cred (d : CheckResult) (h1 : d.score < 60/100)
    (h2 : d.status = "unreliable") :
    reasonsFor ("source_credibility", d) =
      ["Source has credibility concerns: " ++ d.details] := by
  simp [reasonsFor, h1, h2]

lemma reasonsFor_temporal (d : CheckResult) (h1 : d.score < 60/100)
    (h2 : d.status = "future_dated" ∨ d.status = "timing_issue") :
    reasonsFor ("temporal_consistency", d) =
      ["Suspicious timestamp: " ++ d.details] := by
  rcases h2 with h2 | h2 <;> simp [reasonsFor, h1, h2]

/-- C6 (amended): for a five-check result, a check contributes its
canned explanation to the flag reasons when its score is below 0.60 and
its status matches that check's condition (official: not verified;
image: stock photo; fact-checker: debunked; credibility: unreliable;
temporal: future-dated or timing issue); when no check qualifies the
reasons are exactly the single generic below-threshold reason. -/
theorem c6_flag_reasons_conditions :
    ∀ co ci cf cc ct : CheckResult,
      (co.score < 60/100 → co.status ≠ "verified" →
        "Could not verify against official sources" ∈
          extractFlagReasons (checkNames.zip [co, ci, cf, cc, ct]))
      ∧ (ci.score < 60/100 → ci.status = "stock_photo" →
        "Using stock photography instead of original images" ∈
          extractFlagReasons (checkNames.zip [co, ci, cf, cc, ct]))
      ∧ (cf.score < 60/100 → cf.status = "debunked" →
        ("Fact-checkers have flagged this as false/misleading: " ++ cf.details) ∈
          extractFlagReasons (checkNames.zip [co, ci, cf, cc, ct]))
      ∧ (cc.score < 60/100 → cc.status = "unreliable" →
        ("Source has credibility concerns: " ++ cc.details) ∈
          extractFlagReasons (checkNames.zip [co, ci, cf, cc, ct]))
      ∧ (ct.score < 60/100 → (ct.status = "future_dated" ∨ ct.status = "timing_issue") →
        ("Suspicious timestamp: " ++ ct.details) ∈
          extractFlagReasons (checkNames.zip [co, ci, cf, cc, ct]))
      ∧ (reasonsFor ("official_source_match", co) = [] →
        reasonsFor ("image_authenticity", ci) = [] →
        reasonsFor ("fact_checker_status", cf) = [] →
        reasonsFor ("source_credibility", cc) = [] →
        reasonsFor ("temporal_consistency", ct) = [] →
        extractFlagReasons (checkNames.zip [co, ci, cf, cc, ct]) =
          [genericFlagReason]) := by
  intro co ci cf cc ct
  refine ⟨fun h1 h2 => ?_, fun h1 h2 => ?_, fun h1 h2 => ?_, fun h1 h2 => ?_,
    fun h1 h2 => ?_, fun e1 e2 e3 e4 e5 => ?_⟩
  · exact mem_extractFlagReasons
      (by simp [checkNames, reasonsFor_official co h1 h2])
  · exact mem_extractFlagReasons
      (by simp [checkNames, reasonsFor_image ci h1 h2])
  · exact mem_extractFlagReasons
      (by simp [checkNames, reasonsFor_fact cf h1 h2])
  · exact mem_extractFlagReasons
      (by simp [checkNames, reasonsFor_cred cc h1 h2])
  · exact mem_extractFlagReasons
      (by simp [checkNames, reasonsFor_temporal ct h1 h2])
  · rw [extractFlagReasons_eq]
    simp [checkNames, e1, e2, e3, e4, e5]

/-- Witness for C6 (amended): a debunked fact-checker result at score
0.30 puts the fact-checker explanation in the reasons, and a result
whose five checks all miss their canned conditions gets exactly the
generic reason. -/
theorem c6_witness :
    ("Fact-checkers have flagged this as false/misleading: d" ∈
      extractFlagReasons (checkNames.zip
        [⟨7/10, "not_found", "d"⟩, ⟨3/4, "no_image", "d"⟩,
         ⟨3/10, "debunked", "d"⟩, ⟨1/2, "questionable", "d"⟩,
         ⟨3/4, "consistent", "d"⟩]))
    ∧ extractFlagReasons (checkNames.zip
        [⟨7/10, "not_found", "d"⟩, ⟨3/4, "no_image", "d"⟩,
         ⟨7/10, "not_checked", "d"⟩, ⟨1/2, "questionable", "d"⟩,
         ⟨3/4, "consistent", "d"⟩]) = [genericFlagReason] :=
  ⟨(c6_flag_reasons_conditions ⟨7/10, "not_found", "d"⟩ ⟨3/4, "no_image", "d"⟩
      ⟨3/10, "debunked", "d"⟩ ⟨1/2, "questionable", "d"⟩
      ⟨3/4, "consistent", "d"⟩).2.2.1 (by norm_num) (by norm_num),
   (c6_flag_reasons_conditions ⟨7/10, "not_found", "d"⟩ ⟨3/4, "no_image", "d"⟩
      ⟨7/10, "not_checked", "d"⟩ ⟨1/2, "questionable", "d"⟩
      ⟨3/4, "consistent", "d"⟩).2.2.2.2.2 (by norm_num [reasonsFor])
      (by norm_num [reasonsFor]) (by norm_num [reasonsFor])
      (by norm_num [reasonsFor]; decide) (by norm_num [reasonsFor])⟩

/-- C6 (counterexample): a reachable flagged result whose
source-credibility check scores 0.50 with status questionable receives
no explanation naming that check; the reasons list is exactly the
fact-checker explanation, which does not mention credibility.  This
refutes the claim that every check scoring below 0.60 contributes an
explanation naming it. -/
theorem c6_counterexample :
    resultC6.is_flagged = true
    ∧ (∃ d : CheckResult, resultC6.checks.lookup "source_credibility" = some d ∧
        d.score < 60/100)
    ∧ resultC6.flag_reasons =
        ["Fact-checkers have flagged this as false/misleading: Flagged as misleading by https://www.altnews.in"]
    ∧ resultC6.flag_reasons.all (fun r => !(strIn "credibility" r)) = true := by
  have hov : resultC6.overall_score < 65/100 := by
    rw [resultC6, verifyArticle_overall]
    norm_num [resolveCheck]
  have hfr : resultC6.flag_reasons =
      ["Fact-checkers have flagged this as false/misleading: Flagged as misleading by https://www.altnews.in"] := by
    norm_num [resultC6, verifyArticle, checkWeights, resolveCheck, checkNames,
      extractFlagReasons_eq, reasonsFor, genericFlagReason]
    decide
  refine ⟨?_, ⟨⟨1/2, "questionable", "Source does not use secure connection"⟩,
    ?_, by norm_num⟩, hfr, ?_⟩
  · rw [resultC6] at hov ⊢
    exact (verifyArticle_flag_iff _ _ _ _ _).mpr hov
  · rfl
  · rw [hfr]
    decide

/-- C7: the contradiction check succeeds exactly when some antonym pair
of the fixed table occurs in opposite claims (Python substring test on
the lowered texts) and the two texts share more than 3 distinct word
tokens; consequently adding the approve/reject bill claims for the same
source leaves the second claim with a non-empty contradictions list. -/
theorem c7_contradiction_detection :
    (∀ c1 c2 : String, detectContradiction c1 c2 = true ↔
      ((∃ p ∈ contradictoryPairs,
          (strIn p.1 c1 = true ∧ strIn p.2 c2 = true) ∨
          (strIn p.2 c1 = true ∧ strIn p.1 c2 = true)) ∧
        commonWordsCount c1 c2 > 3))
    ∧ ((((addClaim "t2" "Minister will reject the bill" "S" "u2" false
          (addClaim "t1" "Minister will approve the bill" "S" "u1" false
            emptyTimeline).1).1).claims.getLast?.map
        (fun e => e.contradictions.isEmpty)) = some false) := by
  constructor
  · intro c1 c2
    simp only [detectContradiction, List.any_eq_true, Bool.and_eq_true,
      Bool.or_eq_true, decide_eq_true_eq]
    constructor
    · rintro ⟨p, hp, hcont, hcommon⟩
      exact ⟨⟨p, hp, hcont⟩, hcommon⟩
    · rintro ⟨⟨p, hp, hcont⟩, hcommon⟩
      exact ⟨p, hp, hcont, hcommon⟩
  · decide

/-- C8 (counterexample): two textual-integrity calls that differ only in
the cross-verification flag use the same cache key, refuting the claim
that the flag is part of the key and that such calls use distinct keys. -/
theorem c8_counterexample :
    analyzeCacheKey ("some article text") (some "https://example.com") true =
      analyzeCacheKey ("some article text") (some "https://example.com") false := rfl

/-- C8 (amended): the cache key is the constant prefix atie: followed by
the MD5 hex digest of the article text concatenated with the source URL
(empty string when absent); the cross-verification flag does not enter
the key, so calls differing only in that flag share the key. -/
theorem c8_cache_key_contents :
    (∀ (text : String) (url : Option String) (flag : Bool),
      analyzeCacheKey text url flag =
        "atie:" ++ md5Hex (utf8Bytes (text ++ url.getD "").data))
    ∧ (∀ (text : String) (url : Option String),
      analyzeCacheKey text url true = analyzeCacheKey text url false) :=
  ⟨fun _ _ _ => rfl, fun _ _ => rfl⟩

/-- C9 (counterexample): the texts differ only in (internal) whitespace,
yet their claim ids differ, refuting the claim for arbitrary whitespace
differences; normalization only lower-cases and trims the ends. -/
theorem c9_counterexample :
    removeAllWs ("a b") = removeAllWs ("a  b")
    ∧ pyLower ("a b") = ("a b") ∧ pyLower ("a  b") = ("a  b")
    ∧ generateClaimHash ("a b") ≠ generateClaimHash ("a  b") := by
  refine ⟨rfl, rfl, rfl, ?_⟩
  decide

/-- C9 (amended): two claim texts that agree after lower-casing and
trimming leading and trailing whitespace (so texts differing only by
letter case or by leading/trailing whitespace) are assigned the same
claim id by add_claim, the hash of the lower-cased trimmed text. -/
theorem c9_claim_id_normalization (t1 t2 : String)
    (h : pyStrip (pyLower t1) = pyStrip (pyLower t2)) :
    ∀ (now1 now2 src1 src2 url1 url2 : String) (v1 v2 : Bool)
      (tl1 tl2 : Timeline),
      (addClaim now1 t1 src1 url1 v1 tl1).2 = (addClaim now2 t2 src2 url2 v2 tl2).2 := by
  intro now1 now2 src1 src2 url1 url2 v1 v2 tl1 tl2
  simp only [addClaim, generateClaimHash, h]

/-- Witness for C9 (amended): a claim with stray case and padding gets
the same id as its normalized form. -/
theorem c9_witness :
    (addClaim "t" "  Minister RESIGNED " "S" "u" false emptyTimeline).2 =
      (addClaim "t" "minister resigned" "S2" "u2" true emptyTimeline).2 :=
  c9_claim_id_normalization ("  Minister RESIGNED ") ("minister resigned")
    (by decide) "t" "t" "S" "S2" "u" "u2" false true emptyTimeline emptyTimeline

/-- C10: an article with no published_at field gets the neutral
temporal-consistency result, score 0.75 and status consistent, from a
total function (the collector returns instead of raising). -/
theorem c10_missing_timestamp_neutral :
    ∀ now : Int, verifyTemporalConsistency now none =
      ⟨3/4, "consistent", "Timestamp appears reasonable"⟩ :=
  fun _ => rfl

/-- C4: for a source present in the citation graph, the computed trust
score equals the clamp to [0, 1] of 0.5, plus 0.3 times (the average
stored trust of the sources citing it minus 0.5) when it has at least
one citer, minus 0.2 times the number of simple cycles containing it,
plus 0.1 when it cites more than five distinct sources. -/
theorem c4_trust_score_formula (g : CitationGraph) (trust : List (String × ℚ))
    (s : String) (h : (nodesOf g).contains s = true) :
    calculateTrustScore g trust s = trustScoreSpec g trust s := by
  simp only [calculateTrustScore, trustScoreSpec, h, if_true]
  split_ifs with h1 h2 <;>
    exact congrArg (fun q => max 0 (min 1 q)) (by ring)

/-- Witness for C4: the two-node graph in which a cites b, evaluated at
the cited source b. -/
theorem c4_witness :
    calculateTrustScore [("a", "b")] [] "b" = trustScoreSpec [("a", "b")] [] "b" :=
  c4_trust_score_formula [("a", "b")] [] "b" (by decide)
